import Mathlib

/-!
Shallow embedding of `src/rgb_controller.py` (RGB_Controller_For_PC).

The program polls CPU temperature and drives RGB lighting devices through an
OpenRGB client.  The pure parts (`temperature_to_rgb`, `detect_sleep_wake`)
are translated directly.  The effectful parts are embedded with explicit
oracles: device writes (`set_mode` / `set_color`) may succeed or raise, which
we record per device with boolean flags, and every attempted write is logged
to a trace so that "no write is issued" is a statement about the trace.
Python floats are modelled as rationals, Python ints as `Int`.
-/

namespace RGBController

/-- An RGB triple as produced by `temperature_to_rgb` (Python integers). -/
abbrev RGB := Int × Int × Int

/-- `temperature_to_rgb` from `rgb_controller.py` lines 104-121: map the input
temperature to one of seven predefined color bands. -/
def temperature_to_rgb (temp : ℚ) : RGB :=
  if temp ≤ 30 then (0, 0, 255)        -- Blue
  else if temp ≤ 40 then (63, 0, 192)  -- Purple-blue
  else if temp ≤ 45 then (0, 255, 0)   -- Green
  else if temp ≤ 50 then (127, 255, 0) -- Green-yellow
  else if temp ≤ 60 then (255, 255, 0) -- Yellow
  else if temp ≤ 65 then (255, 127, 0) -- Orange-red
  else (255, 0, 0)                     -- Red

/-- The seven fixed color bands, in the order they appear in the source. -/
def color_bands : List RGB :=
  [(0, 0, 255), (63, 0, 192), (0, 255, 0), (127, 255, 0),
   (255, 255, 0), (255, 127, 0), (255, 0, 0)]

/-- `detect_sleep_wake` from lines 62-73.  `last_timestamp` and `now`
(`datetime.now()` in the source) are wall-clock times in seconds; the function
returns `true` exactly when the elapsed gap exceeds 30 seconds. -/
def detect_sleep_wake (last_timestamp now : ℚ) : Bool :=
  decide (now - last_timestamp > 30)

/-- A device as seen through the OpenRGB client: its name, the names of its
available modes (`[mode.name for mode in device.modes]`), its `DeviceType`
tag, and two oracles saying whether `device.set_mode` / `device.set_color`
succeed (otherwise they raise, which `apply_rgb_color` catches per device). -/
structure Device where
  name : String
  modes : List String
  devType : Nat
  set_mode_ok : Bool
  set_color_ok : Bool
deriving DecidableEq, Repr

/-- The OpenRGB client handle: exposes the list of connected devices. -/
structure Client where
  devices : List Device
deriving DecidableEq, Repr

/-- `client.get_devices_by_type(device_type)` : the devices whose type matches. -/
def get_devices_by_type (client : Client) (t : Nat) : List Device :=
  client.devices.filter (fun d => d.devType = t)

/-- One attempted gateway write: `device.set_mode(mode)` or
`device.set_color(color)`, tagged with the target device's name. -/
inductive WriteCall where
  | set_mode (device : String) (mode : String)
  | set_color (device : String) (color : RGB)
deriving DecidableEq, Repr

/-- The device a write call targets. -/
def write_device_name : WriteCall → String
  | WriteCall.set_mode d _ => d
  | WriteCall.set_color d _ => d

/-- The writes attempted for `name` within a trace. -/
def writes_for (name : String) (trace : List WriteCall) : List WriteCall :=
  trace.filter (fun w => write_device_name w = name)

/-- The body of the `for device in target_devices` loop of `apply_rgb_color`
(lines 148-160): if `"Static"` is among the device's modes, `set_mode` is
attempted; if it succeeds, `set_color` is attempted; a raising call is caught
and logged, so the loop continues either way.  A device without `"Static"` is
only logged and gets no write.  Returns the writes attempted on this device. -/
def apply_to_device (d : Device) (c : RGB) : List WriteCall :=
  if d.modes.contains "Static" then
    if d.set_mode_ok then
      [WriteCall.set_mode d.name "Static", WriteCall.set_color d.name c]
    else
      [WriteCall.set_mode d.name "Static"]
  else []

/-- A device whose write path fails: it advertises `"Static"` so a write is
attempted, but `set_mode` or `set_color` raises. -/
def device_write_failed (d : Device) : Bool :=
  d.modes.contains "Static" && (!d.set_mode_ok || !d.set_color_ok)

/-- `apply_rgb_color` from lines 123-162.  Returns the trace of attempted
writes together with the returned "updated RGB values":
* if the new color equals `prev_rgb`, return `prev_rgb` at once (line 136);
* with a `device_type` filter matching no devices, warn and return `prev_rgb`
  (lines 142-146);
* otherwise run the device loop and return `(red, green, blue)` (line 162). -/
def apply_rgb_color (client : Client) (red green blue : Int) (prev_rgb : RGB)
    (device_type : Option Nat) : List WriteCall × RGB :=
  if (red, green, blue) = prev_rgb then ([], prev_rgb)
  else
    let target_devices :=
      match device_type with
      | none => client.devices
      | some t => get_devices_by_type client t
    if device_type.isSome ∧ target_devices = [] then ([], prev_rgb)
    else
      ((target_devices.map (fun d => apply_to_device d (red, green, blue))).flatten,
        (red, green, blue))

/-- The connection-probe loop of `start_openrgb_server` (lines 28-37):
starting at `attempt`, try up to `fuel` probes (`OpenRGBClient(...)`); return
`true` on the first success, `false` once the attempts are exhausted.
`probe i` says whether attempt `i` connects. -/
def connect_probe_loop (probe : Nat → Bool) : Nat → Nat → Bool
  | _, 0 => false
  | attempt, fuel + 1 =>
      if probe attempt then true else connect_probe_loop probe (attempt + 1) fuel

/-- `start_openrgb_server` from lines 19-42: spawn the server process
(`spawn_ok` is whether `subprocess.Popen` succeeds; if it raises, the outer
handler returns `False`), then probe the local port at most 10 times. -/
def start_openrgb_server (spawn_ok : Bool) (probe : Nat → Bool) : Bool :=
  if spawn_ok then connect_probe_loop probe 0 10 else false

/-- Loop-local state of the `__main__` block: the last applied color
`prev_rgb` (line 178, sentinel `(-1,-1,-1)`), the client handle (line 185),
and `last_check_time` (line 179). -/
structure LoopState where
  prev_rgb : RGB
  client : Option Client
  last_check_time : ℚ
deriving DecidableEq, Repr

/-- Outcome of the startup sequence (lines 176-186): either the process calls
`exit(1)` (line 183) or the main `while True` loop is entered with the
initial state. -/
inductive MainBoot where
  | exited (code : Nat)
  | entered_loop (s : LoopState)
deriving DecidableEq, Repr

/-- Lines 176-186: set up `prev_rgb = (-1,-1,-1)` and `last_check_time = t0`,
start the server; on failure exit with code 1, otherwise enter the loop with
`client = None`. -/
def main_boot (spawn_ok : Bool) (probe : Nat → Bool) (t0 : ℚ) : MainBoot :=
  if start_openrgb_server spawn_ok probe then
    MainBoot.entered_loop ⟨(-1, -1, -1), none, t0⟩
  else
    MainBoot.exited 1

/-- Observable events of one loop iteration. -/
inductive Event where
  | restart_server
  | connect_attempt
  | map_color (t : ℚ) (c : RGB)
  | write (w : WriteCall)
  | sleep (seconds : Nat)
deriving DecidableEq, Repr

/-- Everything the environment decides during one iteration of the main loop:
the wall clock at the top of the loop, the result of `get_rgb_client()` if it
is called, the result of `get_cpu_temperature()`, whether
`apply_rgb_color` raises out of the call (control reaches line 216), and
whether a `KeyboardInterrupt` arrives this iteration. -/
structure TickEnv where
  now : ℚ
  connect_result : Option Client
  cpu_temp : Option ℚ
  apply_raises : Bool
  interrupted : Bool

/-- The temperature-processing half of an iteration (lines 208-225), reached
with a live client `c`: read the temperature; if unavailable, warn and fall
through to `time.sleep(2)`; otherwise map it to a color and call
`apply_rgb_color`.  When the new color equals `prev_rgb`, the call returns at
its first line, so it cannot raise; otherwise, if it raises, the handler at
lines 216-219 nulls the client and `continue`s (skipping the sleep); if it
returns, its result becomes the new `prev_rgb`. -/
def tick_connected (prev_rgb : RGB) (c : Client) (now : ℚ) (cpu_temp : Option ℚ)
    (apply_raises : Bool) : LoopState × List Event :=
  match cpu_temp with
  | none => (⟨prev_rgb, some c, now⟩, [Event.sleep 2])
  | some t =>
      let rgb := temperature_to_rgb t
      let evs := [Event.map_color t rgb]
      if rgb = prev_rgb then
        (⟨prev_rgb, some c, now⟩, evs ++ [Event.sleep 2])
      else if apply_raises then
        (⟨prev_rgb, none, now⟩, evs)
      else
        let res := apply_rgb_color c rgb.1 rgb.2.1 rgb.2.2 prev_rgb none
        (⟨res.2, some c, now⟩, evs ++ res.1.map Event.write ++ [Event.sleep 2])

/-- The client used by an iteration after the sleep/wake check and the lazy
reconnect (lines 191-205): the held handle if it survives the sleep/wake
check, otherwise the result of `get_rgb_client()`. -/
def effective_client (s : LoopState) (e : TickEnv) : Option Client :=
  match (if detect_sleep_wake s.last_check_time e.now then none else s.client) with
  | some c => some c
  | none => e.connect_result

/-- One iteration of the `while True` loop (lines 187-234).  Result `none`
means the loop was exited (only a `KeyboardInterrupt` breaks, line 229);
otherwise the new state is returned with the iteration's event trace.
Flow: sleep/wake check (drop handle + restart server on detection), update
`last_check_time`, lazily reconnect when the handle is `None` (a failed
reconnect sleeps 5 s and `continue`s), then the temperature half. -/
def tick (s : LoopState) (e : TickEnv) : Option LoopState × List Event :=
  if e.interrupted then (none, [])
  else
    let sw := detect_sleep_wake s.last_check_time e.now
    let ev0 : List Event := if sw then [Event.restart_server] else []
    match (if sw then none else s.client) with
    | some c =>
        let r := tick_connected s.prev_rgb c e.now e.cpu_temp e.apply_raises
        (some r.1, ev0 ++ r.2)
    | none =>
        match e.connect_result with
        | none =>
            (some ⟨s.prev_rgb, none, e.now⟩,
              ev0 ++ [Event.connect_attempt, Event.sleep 5])
        | some c =>
            let r := tick_connected s.prev_rgb c e.now e.cpu_temp e.apply_raises
            (some r.1, ev0 ++ [Event.connect_attempt] ++ r.2)

/-! ## Theorems about the claims -/

/-- C2: for every temperature `t`, `temperature_to_rgb t` is a pure,
deterministic, total function (a Lean `def`) whose result is one of the 7
fixed RGB bands, with boundary values `temperature_to_rgb 30 = (0,0,255)`,
`temperature_to_rgb 30.1 = (63,0,192)`, `temperature_to_rgb 65 = (255,127,0)`
and `temperature_to_rgb 65.1 = (255,0,0)`. -/
theorem temperature_to_rgb_bands_and_boundaries :
    (∀ t : ℚ, temperature_to_rgb t ∈ color_bands) ∧
    temperature_to_rgb 30 = (0, 0, 255) ∧
    temperature_to_rgb 30.1 = (63, 0, 192) ∧
    temperature_to_rgb 65 = (255, 127, 0) ∧
    temperature_to_rgb 65.1 = (255, 0, 0) := by
  refine ⟨?_, by norm_num [temperature_to_rgb], by norm_num [temperature_to_rgb],
    by norm_num [temperature_to_rgb], by norm_num [temperature_to_rgb]⟩
  intro t
  unfold temperature_to_rgb color_bands
  split_ifs <;> simp

/-- C4: `detect_sleep_wake` is a strict-threshold comparison: it returns
`true` iff the elapsed gap exceeds 30 seconds; a 29-second gap yields `false`
and a 31-second gap yields `true`. -/
theorem detect_sleep_wake_strict_threshold :
    (∀ last now : ℚ, detect_sleep_wake last now = true ↔ now - last > 30) ∧
    (∀ t0 : ℚ, detect_sleep_wake t0 (t0 + 29) = false ∧
      detect_sleep_wake t0 (t0 + 31) = true) := by
  constructor
  · intro last now
    simp [detect_sleep_wake]
  · intro t0
    constructor <;> simp [detect_sleep_wake] <;> norm_num

/-- C3: when the requested color equals `prev_rgb`, `apply_rgb_color` issues
no write call (no `set_mode`, no `set_color`) and returns `prev_rgb`. -/
theorem apply_rgb_color_redundant_write_suppressed
    (client : Client) (red green blue : Int) (prev_rgb : RGB)
    (device_type : Option Nat) (h : (red, green, blue) = prev_rgb) :
    apply_rgb_color client red green blue prev_rgb device_type = ([], prev_rgb) := by
  simp [apply_rgb_color, h]

/-- Witness for C3 at a concrete client holding one device. -/
theorem apply_rgb_color_redundant_write_suppressed_witness :
    apply_rgb_color ⟨[⟨"mb", ["Static"], 0, true, true⟩]⟩ 0 0 255 (0, 0, 255) none
      = ([], (0, 0, 255)) :=
  apply_rgb_color_redundant_write_suppressed _ 0 0 255 (0, 0, 255) none rfl

/-- C10: with a `device_type` filter matching no devices of the client,
`apply_rgb_color` performs no write and returns `prev_rgb` unchanged. -/
theorem apply_rgb_color_no_matching_devices
    (client : Client) (red green blue : Int) (prev_rgb : RGB) (t : Nat)
    (h : get_devices_by_type client t = []) :
    apply_rgb_color client red green blue prev_rgb (some t) = ([], prev_rgb) := by
  unfold apply_rgb_color
  split_ifs with h1
  · rfl
  · simp [h]

/-- Witness for C10: a client whose only device has type 0, filtered by
type 3. -/
theorem apply_rgb_color_no_matching_devices_witness :
    get_devices_by_type ⟨[⟨"mb", ["Static"], 0, true, true⟩]⟩ 3 = [] ∧
    apply_rgb_color ⟨[⟨"mb", ["Static"], 0, true, true⟩]⟩ 255 0 0 (0, 0, 255) (some 3)
      = ([], (0, 0, 255)) :=
  ⟨by decide, apply_rgb_color_no_matching_devices _ 255 0 0 (0, 0, 255) 3 (by decide)⟩

/-- C9: every output of `temperature_to_rgb` is one of exactly 7 fixed
tuples, each component lies in `0..255`, and none equals the initial
sentinel `(-1,-1,-1)`; consequently applying the very first mapped color
against the sentinel is never suppressed by the redundant-write check:
`apply_rgb_color` returns the new color, not the sentinel. -/
theorem temperature_to_rgb_range_and_first_write_not_suppressed :
    (∀ t : ℚ, temperature_to_rgb t ∈ color_bands ∧
      0 ≤ (temperature_to_rgb t).1 ∧ (temperature_to_rgb t).1 ≤ 255 ∧
      0 ≤ (temperature_to_rgb t).2.1 ∧ (temperature_to_rgb t).2.1 ≤ 255 ∧
      0 ≤ (temperature_to_rgb t).2.2 ∧ (temperature_to_rgb t).2.2 ≤ 255 ∧
      temperature_to_rgb t ≠ (-1, -1, -1)) ∧
    color_bands.length = 7 ∧
    (∀ (t : ℚ) (client : Client),
      (apply_rgb_color client (temperature_to_rgb t).1 (temperature_to_rgb t).2.1
        (temperature_to_rgb t).2.2 (-1, -1, -1) none).2 = temperature_to_rgb t) := by
  refine ⟨?_, rfl, ?_⟩
  · intro t
    unfold temperature_to_rgb color_bands
    split_ifs <;> simp
  · intro t client
    have hne : temperature_to_rgb t ≠ (-1, -1, -1) := by
      unfold temperature_to_rgb
      split_ifs <;> simp
    unfold apply_rgb_color
    split_ifs with h1
    · exact absurd (h1 ▸ rfl) hne
    · rfl

/-- If every probe in the attempted window fails, the probe loop returns
`false`. -/
theorem connect_probe_loop_all_fail (probe : Nat → Bool) :
    ∀ (fuel attempt : Nat), (∀ i, i < attempt + fuel → probe i = false) →
      connect_probe_loop probe attempt fuel = false := by
  intro fuel
  induction fuel with
  | zero => intro attempt _; rfl
  | succ n ih =>
      intro attempt h
      unfold connect_probe_loop
      rw [h attempt (by omega)]
      simp only [Bool.false_eq_true, if_false]
      exact ih (attempt + 1) (fun i hi => h i (by omega))

/-- C5: if all 10 connection-probe attempts fail at startup,
`start_openrgb_server` returns `false`, the process exits with code 1, and
the main control loop is never entered. -/
theorem boot_failure_exits_nonzero (probe : Nat → Bool) (t0 : ℚ)
    (h : ∀ i, i < 10 → probe i = false) :
    start_openrgb_server true probe = false ∧
    main_boot true probe t0 = MainBoot.exited 1 ∧
    ∀ s : LoopState, main_boot true probe t0 ≠ MainBoot.entered_loop s := by
  have hs : start_openrgb_server true probe = false := by
    unfold start_openrgb_server
    rw [if_pos rfl]
    exact connect_probe_loop_all_fail probe 10 0 (fun i hi => h i (by omega))
  refine ⟨hs, ?_, ?_⟩
  · unfold main_boot
    rw [hs]
    rfl
  · intro s
    unfold main_boot
    rw [hs]
    simp

/-- Witness for C5: the always-failing probe. -/
theorem boot_failure_exits_nonzero_witness :
    main_boot true (fun _ => false) 0 = MainBoot.exited 1 :=
  (boot_failure_exits_nonzero (fun _ => false) 0 (fun _ _ => rfl)).2.1

/-- C1 counterexample: the claim "for every call of `apply_rgb_color` in
which the color write to a device fails, the returned applied-color value
equals the previous one" is false.  Here the single device advertises
`"Static"`, `set_mode` succeeds but `set_color` raises; the exception is
caught inside the device loop (lines 159-160), and line 162 still returns
the new color `(255,0,0)`, not `prev_rgb = (0,0,255)`. -/
theorem apply_rgb_color_failed_write_still_updates_counterexample :
    device_write_failed ⟨"gpu", ["Static"], 0, true, false⟩ = true ∧
    WriteCall.set_color "gpu" (255, 0, 0) ∈
      (apply_rgb_color ⟨[⟨"gpu", ["Static"], 0, true, false⟩]⟩
        255 0 0 (0, 0, 255) none).1 ∧
    (apply_rgb_color ⟨[⟨"gpu", ["Static"], 0, true, false⟩]⟩
        255 0 0 (0, 0, 255) none).2 ≠ (0, 0, 255) := by
  decide

/-- C1 amended: a per-device write failure is caught inside
`apply_rgb_color`'s device loop and does not prevent the update: whenever the
device loop runs (new color differs from `prev_rgb`, no device-type filter),
the function returns the new color even when some device's write raised.
`prev_rgb` stays unchanged only when the write is suppressed as redundant,
when a device-type filter matches nothing, or when an exception escapes
`apply_rgb_color` itself and the main loop's handler keeps the old value. -/
theorem apply_rgb_color_returns_new_color_despite_failures
    (client : Client) (red green blue : Int) (prev_rgb : RGB)
    (hneq : (red, green, blue) ≠ prev_rgb)
    (_hfail : ∃ d ∈ client.devices, device_write_failed d = true) :
    (apply_rgb_color client red green blue prev_rgb none).2 = (red, green, blue) := by
  unfold apply_rgb_color
  rw [if_neg hneq]
  simp

/-- Witness for the amended C1: a two-device client whose first device's
`set_mode` raises. -/
theorem apply_rgb_color_returns_new_color_despite_failures_witness :
    (apply_rgb_color ⟨[⟨"ram", ["Static"], 1, false, true⟩,
        ⟨"mb", ["Static"], 0, true, true⟩]⟩ 0 255 0 (255, 255, 0) none).2
      = (0, 255, 0) :=
  apply_rgb_color_returns_new_color_despite_failures _ 0 255 0 (255, 255, 0)
    (by decide) ⟨⟨"ram", ["Static"], 1, false, true⟩, by decide, by decide⟩

/-- Every write attempted inside the device-loop body targets that device. -/
theorem apply_to_device_names (d : Device) (c : RGB) :
    ∀ w ∈ apply_to_device d c, write_device_name w = d.name := by
  intro w hw
  unfold apply_to_device at hw
  split_ifs at hw
  · simp only [List.mem_cons, List.not_mem_nil, or_false] at hw
    rcases hw with h | h <;> subst h <;> rfl
  · simp only [List.mem_singleton] at hw
    subst hw
    rfl
  · simp at hw

/-- A device loop over devices none of which carries name `n` attempts no
write tagged with `n`. -/
theorem writes_for_absent_name (n : String) (c : RGB) :
    ∀ ds : List Device, (∀ d ∈ ds, d.name ≠ n) →
      writes_for n ((ds.map (fun x => apply_to_device x c)).flatten) = [] := by
  intro ds
  induction ds with
  | nil => intro _; rfl
  | cons x xs ih =>
      intro h
      rw [List.map_cons, List.flatten_cons]
      unfold writes_for
      rw [List.filter_append]
      have h1 : (apply_to_device x c).filter (fun w => write_device_name w = n) = [] := by
        rw [List.filter_eq_nil_iff]
        intro w hw
        simp [apply_to_device_names x c w hw, h x (List.mem_cons_self x xs)]
      rw [h1]
      simpa [writes_for] using ih (fun d hd => h d (List.mem_cons_of_mem x hd))

/-- In a batch over devices with pairwise-distinct names, the writes tagged
with a member device's name are exactly that device's own loop-body writes. -/
theorem writes_for_in_batch (c : RGB) (d : Device) :
    ∀ ds : List Device, (ds.map Device.name).Nodup → d ∈ ds →
      writes_for d.name ((ds.map (fun x => apply_to_device x c)).flatten) =
        writes_for d.name (apply_to_device d c) := by
  intro ds
  induction ds with
  | nil => intro _ h; cases h
  | cons x xs ih =>
      intro hnd hmem
      rw [List.map_cons, List.flatten_cons]
      rw [List.map_cons, List.nodup_cons] at hnd
      unfold writes_for
      rw [List.filter_append]
      rcases List.mem_cons.mp hmem with heq | hmem'
      · subst heq
        have h2 : writes_for d.name ((xs.map (fun x => apply_to_device x c)).flatten) = [] := by
          refine writes_for_absent_name d.name c xs (fun d' hd' hcontra => ?_)
          exact hnd.1 (hcontra ▸ List.mem_map_of_mem Device.name hd')
        unfold writes_for at h2
        rw [h2, List.append_nil]
      · have hxne : x.name ≠ d.name := fun hcontra =>
          hnd.1 (hcontra ▸ List.mem_map_of_mem Device.name hmem')
        have h1 : (apply_to_device x c).filter (fun w => write_device_name w = d.name) = [] := by
          rw [List.filter_eq_nil_iff]
          intro w hw
          simp [apply_to_device_names x c w hw, hxne]
        rw [h1, List.nil_append]
        simpa [writes_for] using ih hnd.2 hmem'

/-- C6: in a single `apply_rgb_color` call (new color, no type filter) over a
client whose devices have pairwise-distinct names, a device whose modes lack
`"Static"` receives no write at all, while any other device in the same call
whose `set_mode`/`set_color` succeed receives exactly its `set_mode "Static"`
followed by its `set_color`: the skip does not abort the batch. -/
theorem apply_rgb_color_skips_incapable_device
    (client : Client) (red green blue : Int) (prev_rgb : RGB) (d : Device)
    (hneq : (red, green, blue) ≠ prev_rgb)
    (hnodup : (client.devices.map Device.name).Nodup)
    (hmem : d ∈ client.devices) :
    ("Static" ∉ d.modes →
      writes_for d.name (apply_rgb_color client red green blue prev_rgb none).1 = []) ∧
    ("Static" ∈ d.modes → d.set_mode_ok = true →
      writes_for d.name (apply_rgb_color client red green blue prev_rgb none).1 =
        [WriteCall.set_mode d.name "Static",
         WriteCall.set_color d.name (red, green, blue)]) := by
  have htrace : (apply_rgb_color client red green blue prev_rgb none).1 =
      (client.devices.map (fun x => apply_to_device x (red, green, blue))).flatten := by
    unfold apply_rgb_color
    rw [if_neg hneq]
    simp
  rw [htrace, writes_for_in_batch (red, green, blue) d client.devices hnodup hmem]
  constructor
  · intro hno
    simp [writes_for, apply_to_device, hno]
  · intro hyes hmode
    simp [writes_for, apply_to_device, hyes, hmode, write_device_name]

/-- Witness for C6: a client with a `"Static"`-capable motherboard and a
device exposing no modes; the incapable one gets no write, the capable one
gets both of its writes. -/
theorem apply_rgb_color_skips_incapable_device_witness :
    (writes_for "nostatic"
      (apply_rgb_color ⟨[⟨"mb", ["Static"], 0, true, true⟩,
        ⟨"nostatic", ["Direct"], 0, true, true⟩]⟩ 255 0 0 (0, 0, 255) none).1 = []) ∧
    (writes_for "mb"
      (apply_rgb_color ⟨[⟨"mb", ["Static"], 0, true, true⟩,
        ⟨"nostatic", ["Direct"], 0, true, true⟩]⟩ 255 0 0 (0, 0, 255) none).1 =
      [WriteCall.set_mode "mb" "Static", WriteCall.set_color "mb" (255, 0, 0)]) :=
  ⟨(apply_rgb_color_skips_incapable_device
      ⟨[⟨"mb", ["Static"], 0, true, true⟩, ⟨"nostatic", ["Direct"], 0, true, true⟩]⟩
      255 0 0 (0, 0, 255) ⟨"nostatic", ["Direct"], 0, true, true⟩
      (by decide) (by decide) (by decide)).1 (by decide),
   (apply_rgb_color_skips_incapable_device
      ⟨[⟨"mb", ["Static"], 0, true, true⟩, ⟨"nostatic", ["Direct"], 0, true, true⟩]⟩
      255 0 0 (0, 0, 255) ⟨"mb", ["Static"], 0, true, true⟩
      (by decide) (by decide) (by decide)).2 (by decide) (by decide)⟩

/-- C7 counterexample: the claim "in every tick where `get_cpu_temperature`
returns `None`, the loop state other than the timestamp (applied color
`prev_rgb` and the client handle) is left unchanged" is false.  A tick that
begins disconnected (`client = None`) reconnects before the temperature read
(lines 198-205); when the sensor then fails, the client handle has still
changed from `None` to the fresh handle. -/
theorem tick_temp_none_client_changed_counterexample :
    (⟨10, some ⟨[]⟩, none, false, false⟩ : TickEnv).cpu_temp = none ∧
    (tick ⟨(-1, -1, -1), none, 0⟩ ⟨10, some ⟨[]⟩, none, false, false⟩).1 =
      some ⟨(-1, -1, -1), some ⟨[]⟩, 10⟩ ∧
    (some (⟨[]⟩ : Client) : Option Client) ≠
      (⟨(-1, -1, -1), none, 0⟩ : LoopState).client := by
  refine ⟨rfl, ?_, by simp⟩
  simp [tick, tick_connected, detect_sleep_wake]

/-- C7 amended: in every tick that begins connected with no sleep/wake
detected and in which `get_cpu_temperature` returns `None`, no color mapping
and no device write occurs (the trace is just the 2-second sleep) and the
loop state other than the timestamp — `prev_rgb` and the client handle — is
unchanged.  (A tick that begins disconnected may still establish a fresh
client handle before the temperature read.) -/
theorem tick_temp_none_frame
    (s : LoopState) (e : TickEnv) (c : Client)
    (hint : e.interrupted = false)
    (hsw : detect_sleep_wake s.last_check_time e.now = false)
    (hcl : s.client = some c)
    (htemp : e.cpu_temp = none) :
    (tick s e).1 = some ⟨s.prev_rgb, s.client, e.now⟩ ∧
    (tick s e).2 = [Event.sleep 2] := by
  constructor <;> simp [tick, tick_connected, hint, hsw, hcl, htemp]

/-- A 2-second gap from time 0 is below the 30-second threshold. -/
theorem detect_sleep_wake_zero_two : detect_sleep_wake 0 2 = false := by
  norm_num [detect_sleep_wake]

/-- Witness for the amended C7. -/
theorem tick_temp_none_frame_witness :
    (tick ⟨(0, 0, 255), some ⟨[⟨"mb", ["Static"], 0, true, true⟩]⟩, 0⟩
        ⟨2, none, none, false, false⟩).1 =
      some ⟨(0, 0, 255), some ⟨[⟨"mb", ["Static"], 0, true, true⟩]⟩, 2⟩ :=
  (tick_temp_none_frame ⟨(0, 0, 255), some ⟨[⟨"mb", ["Static"], 0, true, true⟩]⟩, 0⟩
    ⟨2, none, none, false, false⟩ ⟨[⟨"mb", ["Static"], 0, true, true⟩]⟩
    rfl detect_sleep_wake_zero_two rfl rfl).1

/-- C8: in every tick in which `apply_rgb_color` raises out of the call
(the handler at lines 216-219), the client handle is invalidated (`None`),
`prev_rgb` is kept, and the loop is not exited; from the resulting state, any
non-interrupted next tick issues a connect attempt (lines 198-203). -/
theorem tick_apply_raises_invalidates_and_reconnects
    (s : LoopState) (e : TickEnv) (c : Client) (t : ℚ)
    (hint : e.interrupted = false)
    (hcl : effective_client s e = some c)
    (htemp : e.cpu_temp = some t)
    (hchg : temperature_to_rgb t ≠ s.prev_rgb)
    (hraise : e.apply_raises = true) :
    (tick s e).1 = some ⟨s.prev_rgb, none, e.now⟩ ∧
    (tick s e).1 ≠ none ∧
    (∀ e' : TickEnv, e'.interrupted = false →
      Event.connect_attempt ∈ (tick ⟨s.prev_rgb, none, e.now⟩ e').2) := by
  have hconn : ∀ cc : Client,
      tick_connected s.prev_rgb cc e.now e.cpu_temp e.apply_raises
        = (⟨s.prev_rgb, none, e.now⟩, [Event.map_color t (temperature_to_rgb t)]) := by
    intro cc
    simp [tick_connected, htemp, hchg, hraise]
  have h1 : (tick s e).1 = some ⟨s.prev_rgb, none, e.now⟩ := by
    unfold effective_client at hcl
    cases hsw : detect_sleep_wake s.last_check_time e.now with
    | false =>
        rw [hsw] at hcl
        simp only [Bool.false_eq_true, if_false] at hcl
        cases hscl : s.client with
        | some c0 => simp [tick, hint, hsw, hscl, hconn]
        | none =>
            rw [hscl] at hcl
            simp only [] at hcl
            simp [tick, hint, hsw, hscl, hcl, hconn]
    | true =>
        rw [hsw] at hcl
        simp only [if_true] at hcl
        simp [tick, hint, hsw, hcl, hconn]
  refine ⟨h1, by rw [h1]; simp, ?_⟩
  intro e' hint'
  cases hcr : e'.connect_result with
  | none => simp [tick, hint', hcr]
  | some c2 => simp [tick, hint', hcr]

/-- At time 2 from timestamp 0, a still-connected client survives the
sleep/wake check unchanged. -/
theorem effective_client_connected_at_two :
    effective_client ⟨(0, 0, 255), some ⟨[]⟩, 0⟩ ⟨2, none, some 70, true, false⟩
      = some ⟨[]⟩ := by
  simp [effective_client, detect_sleep_wake_zero_two]

/-- Witness for C8: connected tick, sensor reads 70 degrees C (mapping to
red, different from the blue `prev_rgb`), and the apply call raises. -/
theorem tick_apply_raises_invalidates_and_reconnects_witness :
    (tick ⟨(0, 0, 255), some ⟨[]⟩, 0⟩ ⟨2, none, some 70, true, false⟩).1 =
      some ⟨(0, 0, 255), none, 2⟩ :=
  (tick_apply_raises_invalidates_and_reconnects
    ⟨(0, 0, 255), some ⟨[]⟩, 0⟩ ⟨2, none, some 70, true, false⟩ ⟨[]⟩ 70
    rfl effective_client_connected_at_two rfl (by decide) rfl).1

end RGBController
